import Mathlib

/-!
Verification development for the voosh-mindweave RAG backend.

The definitions below are shallow embeddings of the TypeScript source:
* `Ingest` models `backend/scripts/ingest.ts` (chunking and article fetching)
  together with the ingest section of `backend/src/config/config.ts`;
* `LLM` models `LLMServiceClass` (the generation service);
* `Chat` models the `POST /api/chat/send` route of `backend/src/routes/chat.ts`;
* `VectorStore` models `VectorStoreService` (the vector-index service).

Text handled character-wise (chunking) is modelled as `List Char`; text that is
only passed around is modelled as `String`.  JavaScript numbers that stay
non-negative integers are modelled as `Nat`; the chunker loop index, which the
source lets go negative, is modelled as `Int`.
-/

namespace Ingest

/-- Whitespace test used by the model of JavaScript `String.prototype.trim`.
The source trims with the JS definition of whitespace; `Char.isWhitespace`
covers space, tab, carriage return and newline, which is the fragment the
claims exercise. -/
def isWS (c : Char) : Bool := c.isWhitespace

/-- Model of JavaScript `s.trim()` on a character list: remove leading and
trailing whitespace. -/
def trim (s : List Char) : List Char :=
  ((s.dropWhile isWS).reverse.dropWhile isWS).reverse

/-- The loop of `DataIngestionService.chunkText` (ingest.ts lines 168-180),
specialised to a step of `step1 + 1` characters so that the recursion is
structural.  `fuel` bounds the number of iterations; since the step is at
least 1, `text.length` iterations always suffice (see `chunkText`).  Each
iteration takes the slice `text.slice(i, i + chunkSize)`, trims it, and keeps
it when the trimmed chunk is non-empty. -/
def chunkGoF (text : List Char) (chunkSize step1 : Nat) : Nat → Nat → List (List Char)
  | 0, _ => []
  | fuel + 1, i =>
    if i < text.length then
      let chunk := trim ((text.drop i).take chunkSize)
      (if 0 < chunk.length then [chunk] else []) ++
        chunkGoF text chunkSize step1 fuel (i + step1 + 1)
    else []

/-- `DataIngestionService.chunkText` from ingest.ts: slide a window of
`chunkSize` characters over the text, advancing by `chunkSize - chunkOverlap`
per step, trimming each slice and dropping slices that trim to empty.
Faithful to the source under the precondition `chunkOverlap < chunkSize`
(positive step); the unrestricted loop, including the non-terminating
configurations, is modelled by `chunkLoopFuel`. -/
def chunkText (text : List Char) (chunkSize chunkOverlap : Nat) : List (List Char) :=
  chunkGoF text chunkSize (chunkSize - chunkOverlap - 1) text.length 0

/-- JavaScript index normalisation used by `String.prototype.slice`:
a negative index counts from the end (clamped at 0), a non-negative index is
clamped at the length. -/
def jsIndex (len : Nat) (x : Int) : Nat :=
  if x < 0 then ((len : Int) + x).toNat else min x.toNat len

/-- Model of JavaScript `text.slice(a, b)` on a character list. -/
def jsSlice (text : List Char) (a b : Int) : List Char :=
  (text.take (jsIndex text.length b)).drop (jsIndex text.length a)

/-- The unrestricted loop of `chunkText`: the index `i` is an `Int` and the
step `chunkSize - chunkOverlap` may be zero or negative, exactly as in the
JavaScript source.  `none` means the loop has not terminated within `fuel`
iterations; a result `some chunks` is the value the source returns. -/
def chunkLoopFuel (text : List Char) (chunkSize : Nat) (step : Int) :
    Nat → Int → Option (List (List Char))
  | 0, i => if i < (text.length : Int) then none else some []
  | fuel + 1, i =>
    if i < (text.length : Int) then
      match chunkLoopFuel text chunkSize step fuel (i + step) with
      | none => none
      | some rest =>
          let chunk := trim (jsSlice text i (i + (chunkSize : Int)))
          some ((if 0 < chunk.length then [chunk] else []) ++ rest)
    else some []

/-- The ingest section of `configSchema` (config.ts lines 75-84): each numeric
field is `z.number()` with a default and there is no refinement relating
`chunkOverlap` to `chunkSize`, so parsing never fails on numeric input. -/
structure IngestParams where
  maxArticles : Int
  chunkSize : Int
  chunkOverlap : Int
deriving DecidableEq

/-- Model of `configSchema.ingest.parse` on the numeric fields: apply the
schema defaults (`maxArticles` 50, `chunkSize` 1000, `chunkOverlap` 200) and
accept any values — the schema performs no cross-field validation. -/
def parseIngestParams (maxArticles chunkSize chunkOverlap : Option Int) :
    Except String IngestParams :=
  Except.ok
    { maxArticles := maxArticles.getD 50
      chunkSize := chunkSize.getD 1000
      chunkOverlap := chunkOverlap.getD 200 }

/-- The concatenation of the tails of the chunks past the overlap region:
each chunk after the first contributes everything beyond its first
`chunkOverlap` characters. -/
def tailParts (chunkOverlap : Nat) (chunks : List (List Char)) : List Char :=
  (chunks.map (fun c => c.drop chunkOverlap)).flatten

/-- Concatenating the non-overlapping regions of consecutive chunks: the
first chunk in full, then each later chunk without its leading
`chunkOverlap` characters. -/
def reconstruct (chunkOverlap : Nat) : List (List Char) → List Char
  | [] => []
  | c :: cs => c ++ tailParts chunkOverlap cs

/-- `r` holds of every pair of consecutive elements. -/
def pairwiseConsecB (r : List Char → List Char → Bool) : List (List Char) → Bool
  | [] => true
  | [_] => true
  | a :: b :: rest => r a b && pairwiseConsecB r (b :: rest)

/-- Two consecutive chunks overlap in exactly `ov` characters: both are at
least `ov` long and the last `ov` characters of the first equal the first
`ov` characters of the second. -/
def exactOverlapB (ov : Nat) (a b : List Char) : Bool :=
  decide (ov ≤ a.length) && decide (ov ≤ b.length) &&
    (a.drop (a.length - ov) == b.take ov)

/-- Two consecutive chunks share their boundary region of
`min ov b.length` characters (the final chunk may be shorter than the
configured overlap). -/
def sharedOverlapB (ov : Nat) (a b : List Char) : Bool :=
  a.drop (a.length - min ov b.length) == b.take (min ov b.length)

/-- One item of a parsed RSS feed (`rss-parser`): every field may be absent. -/
structure FeedItem where
  title : Option String
  link : Option String
  pubDate : Option String
deriving DecidableEq

/-- `Article` from ingest.ts. -/
structure Article where
  title : String
  content : String
  url : String
  publishedAt : String
  source : String
deriving DecidableEq

/-- Environment of `DataIngestionService.fetchArticles`: the configured
feeds with the outcome of parsing each one (`parseURL` may reject, in which
case the feed is logged and skipped), the content extractor
(`extractContent` catches its own errors and returns the empty string), the
domain extractor, the current time, and `config.ingest.maxArticles`. -/
structure IngestEnv where
  feeds : List (String × Except String (List FeedItem))
  extractContent : String → String
  extractDomain : String → String
  nowIso : String
  maxArticles : Nat

/-- `Math.ceil(config.ingest.maxArticles / config.ingest.rssFeeds.length)`
from ingest.ts line 46, for a positive number of feeds. -/
def maxArticlesPerFeed (maxArticles numFeeds : Nat) : Nat :=
  (maxArticles + numFeeds - 1) / numFeeds

/-- The articles one feed contributes: the first `perFeed` items, mapped to
articles with the source defaults, keeping only those whose extracted
content is longer than 100 characters; a feed whose fetch failed is
skipped. -/
def feedArticles (env : IngestEnv) (perFeed : Nat)
    (feed : String × Except String (List FeedItem)) : List Article :=
  match feed.snd with
  | Except.error _ => []
  | Except.ok items =>
      ((items.take perFeed).map (fun item =>
        { title := item.title.getD "Untitled"
          content := env.extractContent (item.link.getD "")
          url := item.link.getD ""
          publishedAt := item.pubDate.getD env.nowIso
          source := env.extractDomain feed.fst })).filter
        (fun a => 100 < a.content.length)

/-- `DataIngestionService.fetchArticles` (ingest.ts lines 44-74). -/
def fetchArticles (env : IngestEnv) : List Article :=
  (env.feeds.map
    (feedArticles env (maxArticlesPerFeed env.maxArticles env.feeds.length))).flatten

/-- Concrete environment refuting C7: `maxArticles = 3` and two feeds of two
long-content items each give a per-feed cap of ⌈3/2⌉ = 2 and a total of 4
articles, exceeding the configured maximum. -/
def c7Env : IngestEnv :=
  { feeds :=
      [("https://feedA.example/rss",
          Except.ok [{ title := some "a1", link := some "https://a/1", pubDate := some "t1" },
                     { title := some "a2", link := some "https://a/2", pubDate := some "t2" }]),
       ("https://feedB.example/rss",
          Except.ok [{ title := some "b1", link := some "https://b/1", pubDate := some "t3" },
                     { title := some "b2", link := some "https://b/2", pubDate := some "t4" }])]
    extractContent := fun _ => String.mk (List.replicate 101 'x')
    extractDomain := fun _ => "example"
    nowIso := "2024-01-01T00:00:00.000Z"
    maxArticles := 3 }

end Ingest

namespace LLM

/-- `config.llm.provider` (config.ts): exactly one backend is configured. -/
inductive Provider
  | gemini
  | openai
  | huggingface
deriving DecidableEq

/-- A source citation `{title, url, relevance}` attached to a response.
Relevance is the similarity score passed through unchanged; it is modelled
as an integer since no arithmetic is performed on it. -/
structure SourceRef where
  title : String
  url : String
  relevance : Int
deriving DecidableEq

/-- The role union `'user' | 'assistant' | 'system'` of `ChatMessage`. -/
inductive Role
  | user
  | assistant
  | system
deriving DecidableEq

/-- `ChatMessage` from the LLM service: one conversation turn.  Timestamps
are capture-time values supplied by the environment. -/
structure ChatMessage where
  role : Role
  content : String
  timestamp : Nat
  sources : List SourceRef
deriving DecidableEq

/-- `RetrievedDocument` / `SearchResult`: a chunk returned by the vector
search, with its metadata and similarity score. -/
structure RetrievedDoc where
  id : String
  content : String
  title : String
  url : String
  timestamp : String
  score : Int
deriving DecidableEq

/-- `LLMResponse` (without the never-used streaming fields: no code path of
the source ever sets `streaming` or `stream`). -/
structure LLMResponse where
  content : String
  sources : List SourceRef
deriving DecidableEq

/-- Environment of `LLMServiceClass`: whether each provider SDK object was
constructed (it is, exactly when its API key is set), and the outcome of
calling that provider on a prompt. -/
structure LLMEnv where
  sdkReady : Provider → Bool
  callBackend : Provider → String → Except String String

/-- `buildContextText` (config.ts lines 644-652): numbered titles and chunk
texts, or a fixed no-context sentence. -/
def buildContextText (context : List RetrievedDoc) : String :=
  if context.length = 0 then
    "No relevant context found in the knowledge base."
  else
    String.intercalate "\n"
      (context.enum.map (fun p =>
        "[" ++ toString (p.fst + 1) ++ "] " ++ p.snd.title ++ "\n" ++ p.snd.content ++ "\n"))

/-- Label used by `buildConversationHistory`: the source renders `user` as
"User" and every other role as "Assistant". -/
def roleLabel : Role → String
  | Role.user => "User"
  | _ => "Assistant"

/-- `buildConversationHistory` (config.ts lines 654-659): the last five
turns, one per line. -/
def buildConversationHistory (history : List ChatMessage) : String :=
  String.intercalate "\n"
    ((history.drop (history.length - 5)).map
      (fun m => roleLabel m.role ++ ": " ++ m.content))

/-- `buildSystemPrompt` (config.ts lines 661-676): the fixed instruction
template with the context block spliced in. -/
def buildSystemPrompt (contextText : String) : String :=
  "You are a helpful AI assistant with access to a knowledge base of recent news articles and research papers. Your responses should be accurate, informative, and cite relevant sources when available.\n\nKNOWLEDGE BASE CONTEXT:\n"
    ++ contextText
    ++ "\n\nINSTRUCTIONS:\n1. Answer the user\x27s question based on the provided context\n2. If the context contains relevant information, reference it in your response\n3. If the context doesn\x27t contain relevant information, clearly state this\n4. Be concise but thorough in your explanations\n5. Maintain a helpful and professional tone\n6. If asked about current events or recent developments, rely on the knowledge base context\n\nRemember to provide accurate information and cite sources when referencing specific facts or claims."

/-- The prompt layout shared by the Gemini and HuggingFace calls. -/
def chatPrompt (systemPrompt history message : String) : String :=
  systemPrompt ++ "\n\nConversation History:\n" ++ history
    ++ "\n\nUser: " ++ message ++ "\n\nAssistant:"

/-- The user message of the OpenAI call; the two-message array
`[system, user]` is modelled as the system prompt followed by this text. -/
def openAIUserContent (history message : String) : String :=
  "Previous conversation:\n" ++ history ++ "\n\nCurrent message: " ++ message

/-- Error message of the unreachable-SDK guard of each `generateWithX`. -/
def providerName : Provider → String
  | Provider.gemini => "Gemini"
  | Provider.openai => "OpenAI"
  | Provider.huggingface => "HuggingFace"

/-- The provider dispatch of `generateResponse` (the `switch` plus
`generateWithGemini` / `generateWithOpenAI` / `generateWithHuggingFace`):
each branch first throws when its SDK object is missing, then calls the
backend with its prompt.  The OpenAI branch substitutes a fixed string for
an empty completion (`... || 'No response generated'`). -/
def generateWith (env : LLMEnv) (p : Provider) (message history systemPrompt : String) :
    Except String LLMResponse :=
  if env.sdkReady p = false then
    Except.error (providerName p ++ " not initialized")
  else
    match p with
    | Provider.openai =>
        (env.callBackend Provider.openai
            (systemPrompt ++ "\n" ++ openAIUserContent history message)).map
          (fun t =>
            { content := if t = "" then "No response generated" else t, sources := [] })
    | _ =>
        (env.callBackend p (chatPrompt systemPrompt history message)).map
          (fun t => { content := t, sources := [] })

/-- The fixed fallback text of the catch branch of `generateResponse`
(config.ts lines 556-564). -/
def apologyMessage : String :=
  "I apologize, but I encountered an error while processing your request. Please try again."

/-- `LLMServiceClass.generateResponse` (config.ts lines 511-565): build the
context block, history summary and system prompt, dispatch to the single
configured provider, attach the retrieved documents as sources on success,
and on any error return the fixed apology with no sources. -/
def generateResponse (env : LLMEnv) (provider : Provider) (message : String)
    (history : List ChatMessage) (context : List RetrievedDoc) : LLMResponse :=
  match generateWith env provider message (buildConversationHistory history)
      (buildSystemPrompt (buildContextText context)) with
  | Except.ok r =>
      { r with
          sources := context.map (fun d =>
            { title := d.title, url := d.url, relevance := d.score }) }
  | Except.error _ =>
      { content := apologyMessage, sources := [] }

/-- Environment refuting C2: both backends constructed, the primary
(Gemini) failing, the would-be secondary (OpenAI) producing text. -/
def c2Env : LLMEnv :=
  { sdkReady := fun _ => true
    callBackend := fun p _ =>
      match p with
      | Provider.gemini => Except.error "quota exceeded"
      | Provider.openai => Except.ok "hello from secondary"
      | Provider.huggingface => Except.ok "hf text" }

/-- Environment for the C2 witness: no SDK constructed, so the configured
backend fails with its not-initialized error. -/
def c2FailEnv : LLMEnv :=
  { sdkReady := fun _ => false
    callBackend := fun _ _ => Except.ok "unused" }

end LLM

namespace Chat

open LLM

/-- The session store keyed by session id.  Modelled from the spec:
`RedisClient` (backend/src/services/redis.ts) is not part of the sources;
§4.5 of the spec defines `append` (creates the session if absent) and `get`
(ordered turns, empty if absent).  TTL expiry is not modelled — no claim
depends on it. -/
abbrev Sessions : Type := List (String × List ChatMessage)

/-- Modelled from the spec: `RedisClient.getSessionHistory` — the ordered
turns of a session, empty when the session is absent. -/
def getSessionHistory (store : Sessions) (sessionId : String) : List ChatMessage :=
  match store with
  | [] => []
  | (k, v) :: rest => if k = sessionId then v else getSessionHistory rest sessionId

/-- Modelled from the spec: `RedisClient.addToSessionHistory` — append one
turn to the session, creating it if absent. -/
def addToSessionHistory (store : Sessions) (sessionId : String) (m : ChatMessage) : Sessions :=
  match store with
  | [] => [(sessionId, [m])]
  | (k, v) :: rest =>
      if k = sessionId then (k, v ++ [m]) :: rest
      else (k, v) :: addToSessionHistory rest sessionId m

/-- The request body accepted by `POST /api/chat/send` after validation:
`sessionId` optional, `message` a non-empty string. -/
structure SendRequest where
  sessionId : Option String
  message : String
deriving DecidableEq

/-- The JSON body of a successful `/send` response. -/
structure SendOk where
  sessionId : String
  response : String
  sources : List SourceRef
  timestamp : String
deriving DecidableEq

/-- Outcome of the `/send` handler: the 200 JSON body, or the 500 body
produced by the catch-all (`{error, message}`). -/
inductive SendResult
  | ok (body : SendOk)
  | serverError (error message : String)
deriving DecidableEq

/-- Environment of one `/send` request: the LLM environment and configured
provider, the outcome of `VectorStore.search` (which embeds the query and
queries the index — a failure of either rejects), the value `uuidv4()` would
return, and the capture times. -/
structure ChatEnv where
  llm : LLMEnv
  provider : Provider
  search : Except String (List RetrievedDoc)
  freshId : String
  now : Nat
  nowIso : String

/-- `const sessionId = providedSessionId || uuidv4()` (chat.ts line 30):
JavaScript `||` also replaces an empty string by a fresh id. -/
def resolveSessionId (req : SendRequest) (freshId : String) : String :=
  match req.sessionId with
  | some s => if s = "" then freshId else s
  | none => freshId

/-- The user turn appended to the session. -/
def userTurn (req : SendRequest) (now : Nat) : ChatMessage :=
  { role := Role.user, content := req.message, timestamp := now, sources := [] }

/-- The assistant turn appended to the session. -/
def assistantTurn (resp : LLMResponse) (now : Nat) : ChatMessage :=
  { role := Role.assistant, content := resp.content, timestamp := now, sources := resp.sources }

/-- The `POST /api/chat/send` handler (chat.ts lines 27-101): resolve the
session id, load the history, run the vector search (a rejection reaches
the catch-all, which answers 500 and leaves the store untouched), generate
the response (never throws — it degrades to the apology), append the user
and assistant turns, and answer 200 with the session id, text, sources and
timestamp.  The streaming branch is dead code (`response.streaming` is
never set) and is not modelled. -/
def sendMessage (env : ChatEnv) (store : Sessions) (req : SendRequest) :
    SendResult × Sessions :=
  let sessionId := resolveSessionId req env.freshId
  let history := getSessionHistory store sessionId
  match env.search with
  | Except.error _ =>
      (SendResult.serverError "Internal server error" "Failed to process message", store)
  | Except.ok docs =>
      let response := generateResponse env.llm env.provider req.message history docs
      let store1 := addToSessionHistory store sessionId (userTurn req env.now)
      let store2 := addToSessionHistory store1 sessionId (assistantTurn response env.now)
      (SendResult.ok
        { sessionId := sessionId
          response := response.content
          sources := response.sources
          timestamp := env.nowIso }, store2)

/-- The session id of a successful response. -/
def sentSessionId : SendResult → Option String
  | SendResult.ok body => some body.sessionId
  | SendResult.serverError _ _ => none

/-- Environment for the C3 witness and the C9 theorems: search succeeds
with no documents, the configured Gemini SDK is absent so generation fails
into the apology. -/
def c3Env : ChatEnv :=
  { llm := { sdkReady := fun _ => false, callBackend := fun _ _ => Except.ok "unused" }
    provider := Provider.gemini
    search := Except.ok []
    freshId := "fresh-360"
    now := 7
    nowIso := "2024-01-01T00:00:00.000Z" }

/-- Environment for the C8 witness: the vector search rejects. -/
def c8Env : ChatEnv :=
  { llm := { sdkReady := fun _ => true, callBackend := fun _ _ => Except.ok "generated" }
    provider := Provider.gemini
    search := Except.error "connect ECONNREFUSED 127.0.0.1:6333"
    freshId := "fresh-361"
    now := 8
    nowIso := "2024-01-02T00:00:00.000Z" }

/-- Request used by the C9 counterexample and witnesses. -/
def c9Req : SendRequest := { sessionId := none, message := "hello" }

end Chat

namespace VectorStore

open LLM

/-- `config.vectorStore.type`. -/
inductive StoreType
  | qdrant
  | chroma
deriving DecidableEq

/-- `Document` from vectorStore.ts (metadata fields inlined). -/
structure Document where
  id : String
  content : String
  title : String
  url : String
  timestamp : String
  source : String
deriving DecidableEq

/-- One call to an external backend (embedding service, Qdrant or Chroma),
recorded so that theorems can state that no backend call happens. -/
inductive BackendCall
  | embed (text : String)
  | qdrantUpsert (ids : List String)
  | chromaAdd (ids : List String)
  | qdrantSearch (topK : Nat)
  | chromaQuery (topK : Nat)
  | qdrantDelete (ids : List String)
  | chromaDelete (ids : List String)
  | qdrantDeleteAll
  | chromaDeleteCollection
  | chromaCreateCollection
deriving DecidableEq

/-- Mutable state of `VectorStoreService`: the `initialized` flag set by
`initialize()` and the configured backend type. -/
structure VSState where
  initialized : Bool
  storeType : StoreType
deriving DecidableEq

/-- Results returned by the backends. -/
structure VSEnv where
  embed : String → List Int
  qdrantSearchRes : List Int → Nat → List RetrievedDoc
  chromaQueryRes : List Int → Nat → List RetrievedDoc

/-- The guard message thrown by every public operation. -/
def notReadyMsg : String := "Vector store not initialized"

/-- The upsert batches of `addDocumentsToQdrant`: batches of 100 points. -/
def batchesOf100 (l : List String) : List (List String) :=
  if h : l.isEmpty then []
  else l.take 100 :: batchesOf100 (l.drop 100)
termination_by l.length
decreasing_by
  simp [List.isEmpty_iff] at h
  cases l with
  | nil => exact absurd rfl h
  | cons a l =>
      simp only [List.length_drop, List.length_cons]
      omega

/-- `VectorStoreService.addDocuments` (config.ts lines 250-264 of the
bundled source): guard on the `initialized` flag, then embed every document
and upsert — to Qdrant in batches of 100, to Chroma in one call. -/
def addDocuments (st : VSState) (docs : List Document) :
    Except String Unit × List BackendCall :=
  if st.initialized = false then (Except.error notReadyMsg, [])
  else
    let embedCalls := docs.map (fun d => BackendCall.embed d.content)
    match st.storeType with
    | StoreType.qdrant =>
        (Except.ok (),
          embedCalls ++ (batchesOf100 (docs.map Document.id)).map BackendCall.qdrantUpsert)
    | StoreType.chroma =>
        (Except.ok (), embedCalls ++ [BackendCall.chromaAdd (docs.map Document.id)])

/-- `VectorStoreService.search` (guard, then embed the query and query the
configured backend; `topK` defaults to 5 at the call sites). -/
def search (env : VSEnv) (st : VSState) (query : String) (topK : Nat) :
    Except String (List RetrievedDoc) × List BackendCall :=
  if st.initialized = false then (Except.error notReadyMsg, [])
  else
    match st.storeType with
    | StoreType.qdrant =>
        (Except.ok (env.qdrantSearchRes (env.embed query) topK),
          [BackendCall.embed query, BackendCall.qdrantSearch topK])
    | StoreType.chroma =>
        (Except.ok (env.chromaQueryRes (env.embed query) topK),
          [BackendCall.embed query, BackendCall.chromaQuery topK])

/-- `VectorStoreService.deleteDocument`. -/
def deleteDocument (st : VSState) (id : String) :
    Except String Unit × List BackendCall :=
  if st.initialized = false then (Except.error notReadyMsg, [])
  else
    match st.storeType with
    | StoreType.qdrant => (Except.ok (), [BackendCall.qdrantDelete [id]])
    | StoreType.chroma => (Except.ok (), [BackendCall.chromaDelete [id]])

/-- `VectorStoreService.clearCollection` (Qdrant: delete all points;
Chroma: delete then recreate the collection). -/
def clearCollection (st : VSState) :
    Except String Unit × List BackendCall :=
  if st.initialized = false then (Except.error notReadyMsg, [])
  else
    match st.storeType with
    | StoreType.qdrant => (Except.ok (), [BackendCall.qdrantDeleteAll])
    | StoreType.chroma =>
        (Except.ok (), [BackendCall.chromaDeleteCollection, BackendCall.chromaCreateCollection])

/-- A backend-result environment for witnesses. -/
def c10Env : VSEnv :=
  { embed := fun _ => [0]
    qdrantSearchRes := fun _ _ => []
    chromaQueryRes := fun _ _ => [] }

end VectorStore

namespace Ingest

/-- `dropWhile` is the identity on a list none of whose elements satisfy the
predicate. -/
theorem dropWhile_all_false {p : Char → Bool} {l : List Char}
    (h : ∀ c ∈ l, p c = false) : l.dropWhile p = l := by
  cases l with
  | nil => rfl
  | cons a l => simp [List.dropWhile_cons, h a (by simp)]

/-- `trim` is the identity on whitespace-free text. -/
theorem trim_eq_self {l : List Char} (h : ∀ c ∈ l, isWS c = false) :
    trim l = l := by
  unfold trim
  rw [dropWhile_all_false h]
  rw [dropWhile_all_false (fun c hc => h c (by simpa using hc))]
  simp

/-- Trimming never lengthens a list. -/
theorem trim_length_le (l : List Char) : (trim l).length ≤ l.length := by
  unfold trim
  have h1 := (List.dropWhile_sublist (l := l) isWS).length_le
  have h2 := (List.dropWhile_sublist (l := (l.dropWhile isWS).reverse) isWS).length_le
  simp only [List.length_reverse] at h1 h2 ⊢
  omega

/-- Past the end of the text the chunking loop yields nothing. -/
theorem chunkGoF_nil (text : List Char) (chunkSize step1 fuel i : Nat)
    (h : ¬ i < text.length) : chunkGoF text chunkSize step1 fuel i = [] := by
  cases fuel <;> simp [chunkGoF, h]

/-- On whitespace-free text, one iteration of the chunking loop emits the
untrimmed window and recurses. -/
theorem chunkGoF_cons (text : List Char) (chunkSize step1 fuel i : Nat)
    (hi : i < text.length) (hsz : 0 < chunkSize)
    (hws : ∀ c ∈ text, isWS c = false) :
    chunkGoF text chunkSize step1 (fuel + 1) i
      = ((text.drop i).take chunkSize)
          :: chunkGoF text chunkSize step1 fuel (i + step1 + 1) := by
  have htr : trim ((text.drop i).take chunkSize) = (text.drop i).take chunkSize :=
    trim_eq_self (fun c hc => hws c (List.mem_of_mem_drop (List.mem_of_mem_take hc)))
  have hlen : 0 < ((text.drop i).take chunkSize).length := by
    simp only [List.length_take, List.length_drop]
    omega
  simp [chunkGoF, hi, htr, hlen, hsz]

/-- When the loop step is not positive and the text is non-empty, the index
never reaches the end of the text, so no amount of fuel makes the chunking
loop terminate. -/
theorem chunkLoopFuel_nonpos_step_none (text : List Char) (chunkSize : Nat) (step : Int)
    (hstep : step ≤ 0) (htext : 0 < text.length) :
    ∀ (fuel : Nat) (i : Int), i ≤ 0 → chunkLoopFuel text chunkSize step fuel i = none := by
  intro fuel
  induction fuel with
  | zero =>
      intro i hi
      have hlt : i < (text.length : Int) := by
        have : (0 : Int) < (text.length : Int) := by exact_mod_cast htext
        omega
      simp [chunkLoopFuel, hlt]
  | succ n ih =>
      intro i hi
      have hlt : i < (text.length : Int) := by
        have : (0 : Int) < (text.length : Int) := by exact_mod_cast htext
        omega
      have hrec := ih (i + step) (by omega)
      simp [chunkLoopFuel, hlt, hrec]

/-- C1: the configuration `chunkSize = 1000, chunkOverlap = 1000` is accepted
by the config schema, and on the two-character text "ab" the chunking loop
then never terminates (no fuel bound suffices), instead of failing fast.
This contradicts the claim, which requires a malformed configuration
(`chunkOverlap ≥ chunkSize`) to be rejected before chunking runs. -/
theorem chunkText_malformed_config_loops :
    parseIngestParams (some 50) (some 1000) (some 1000)
        = Except.ok { maxArticles := 50, chunkSize := 1000, chunkOverlap := 1000 }
      ∧ ∀ fuel : Nat,
        chunkLoopFuel (String.toList "ab") 1000 ((1000 : Int) - 1000) fuel 0 = none := by
  constructor
  · rfl
  · intro fuel
    exact chunkLoopFuel_nonpos_step_none (String.toList "ab") 1000 ((1000 : Int) - 1000)
      (by norm_num) (by decide) fuel 0 (by omega)

/-- `tailParts` splits off the head chunk. -/
theorem tailParts_cons (ov : Nat) (c : List Char) (cs : List (List Char)) :
    tailParts ov (c :: cs) = c.drop ov ++ tailParts ov cs := by
  simp [tailParts]

/-- On whitespace-free text the overlap-stripped tails of the chunks starting
at position `i` concatenate to the suffix of the text from `i + ov` on. -/
theorem tailParts_chunkGoF (text : List Char) (chunkSize ov step1 : Nat)
    (hstep : step1 + 1 = chunkSize - ov) (hov : ov < chunkSize)
    (hws : ∀ c ∈ text, isWS c = false) :
    ∀ fuel i, text.length ≤ i + fuel →
      tailParts ov (chunkGoF text chunkSize step1 fuel i) = text.drop (i + ov) := by
  intro fuel
  induction fuel with
  | zero =>
      intro i hle
      rw [chunkGoF_nil text chunkSize step1 0 i (by omega)]
      rw [List.drop_eq_nil_of_le (by omega)]
      rfl
  | succ n ih =>
      intro i hle
      by_cases hi : i < text.length
      · rw [chunkGoF_cons text chunkSize step1 n i hi (by omega) hws]
        rw [tailParts_cons]
        rw [ih (i + step1 + 1) (by omega)]
        have e1 : ((text.drop i).take chunkSize).drop ov
            = (text.drop (i + ov)).take (chunkSize - ov) := by
          rw [List.drop_take, List.drop_drop]
        rw [e1]
        have e2 : i + step1 + 1 + ov = (i + ov) + (chunkSize - ov) := by omega
        have e3 : text.drop ((i + ov) + (chunkSize - ov))
            = (text.drop (i + ov)).drop (chunkSize - ov) :=
          (List.drop_drop (chunkSize - ov) (i + ov) text).symm
        rw [e2, e3]
        exact List.take_append_drop (chunkSize - ov) (text.drop (i + ov))
      · rw [chunkGoF_nil text chunkSize step1 (n + 1) i hi]
        rw [List.drop_eq_nil_of_le (by omega)]
        rfl

/-- C4 (counterexample): with `chunkSize = 2`, `chunkOverlap = 1` and the
text "a " (which ends in a space), `chunkText` trims the chunks, so
concatenating the non-overlapping regions yields "a" and not the original
text — the round-trip claim fails as stated. -/
theorem chunkText_reconstruct_counterexample :
    0 < 1 ∧ 1 < 2 ∧
      reconstruct 1 (chunkText (String.toList "a ") 2 1) ≠ String.toList "a " := by
  decide

/-- C4 (amended): for whitespace-free text and valid parameters
`0 < chunkOverlap < chunkSize`, concatenating the non-overlapping regions of
the consecutive chunks produced by `chunkText` reconstructs the original text
exactly. -/
theorem chunkText_reconstruct_wsfree (text : List Char) (chunkSize chunkOverlap : Nat)
    (h0 : 0 < chunkOverlap) (h1 : chunkOverlap < chunkSize)
    (hws : ∀ c ∈ text, isWS c = false) :
    reconstruct chunkOverlap (chunkText text chunkSize chunkOverlap) = text := by
  unfold chunkText
  cases hlen : text.length with
  | zero =>
      have hnil : text = [] := List.length_eq_zero.mp hlen
      rw [hnil]
      rfl
  | succ n =>
      have hi : 0 < text.length := by omega
      rw [chunkGoF_cons text chunkSize (chunkSize - chunkOverlap - 1) n 0 hi (by omega) hws]
      show ((text.drop 0).take chunkSize)
          ++ tailParts chunkOverlap
              (chunkGoF text chunkSize (chunkSize - chunkOverlap - 1) n
                (0 + (chunkSize - chunkOverlap - 1) + 1)) = text
      rw [tailParts_chunkGoF text chunkSize chunkOverlap (chunkSize - chunkOverlap - 1)
        (by omega) h1 hws n (0 + (chunkSize - chunkOverlap - 1) + 1) (by omega)]
      rw [List.drop_zero]
      have e : 0 + (chunkSize - chunkOverlap - 1) + 1 + chunkOverlap = chunkSize := by omega
      rw [e]
      exact List.take_append_drop chunkSize text

/-- Witness for C4 (amended) at text "ab", `chunkSize = 3`, `chunkOverlap = 1`. -/
theorem chunkText_reconstruct_wsfree_witness :
    (0 < 1 ∧ 1 < 3 ∧ (∀ c ∈ String.toList "ab", isWS c = false)) ∧
      reconstruct 1 (chunkText (String.toList "ab") 3 1) = String.toList "ab" :=
  ⟨⟨by decide, by decide, by decide⟩,
    chunkText_reconstruct_wsfree (String.toList "ab") 3 1 (by decide) (by decide) (by decide)⟩

/-- C5 (counterexample): the text "ab" has length 2, below `chunkSize = 3`,
and is not whitespace, yet with `chunkOverlap = 2 < 3 = chunkSize` the loop
advances by one character per step and produces the two chunks "ab" and "b",
not a single chunk. -/
theorem chunkText_short_text_counterexample :
    (String.toList "ab").length < 3 ∧ 2 < 3 ∧ trim (String.toList "ab") ≠ [] ∧
      chunkText (String.toList "ab") 3 2 ≠ [trim (String.toList "ab")] := by
  decide

/-- C5 (amended): when the text trims to something non-empty and its length
is at most `chunkSize - chunkOverlap` (one loop step), `chunkText` returns
exactly one chunk, the full trimmed text. -/
theorem chunkText_single_chunk (text : List Char) (chunkSize chunkOverlap : Nat)
    (h1 : chunkOverlap < chunkSize) (hne : trim text ≠ [])
    (hlen : text.length ≤ chunkSize - chunkOverlap) :
    chunkText text chunkSize chunkOverlap = [trim text] := by
  unfold chunkText
  have htext : 0 < text.length := by
    rcases Nat.eq_zero_or_pos text.length with h | h
    · exact absurd (by rw [List.length_eq_zero.mp h]; rfl) hne
    · exact h
  obtain ⟨n, hn⟩ : ∃ n, text.length = n + 1 := ⟨text.length - 1, by omega⟩
  rw [hn]
  simp only [chunkGoF, htext, if_pos]
  have etake : (text.drop 0).take chunkSize = text := by
    rw [List.drop_zero]
    exact List.take_of_length_le (by omega)
  rw [etake]
  have hpos : 0 < (trim text).length := List.length_pos.mpr hne
  rw [if_pos hpos]
  rw [chunkGoF_nil text chunkSize (chunkSize - chunkOverlap - 1) n
    (0 + (chunkSize - chunkOverlap - 1) + 1) (by omega)]
  rfl

/-- Witness for C5 (amended) at text "ab", `chunkSize = 4`, `chunkOverlap = 1`. -/
theorem chunkText_single_chunk_witness :
    (1 < 4 ∧ trim (String.toList "ab") ≠ [] ∧ (String.toList "ab").length ≤ 4 - 1) ∧
      chunkText (String.toList "ab") 4 1 = [trim (String.toList "ab")] :=
  ⟨⟨by decide, by decide, by decide⟩,
    chunkText_single_chunk (String.toList "ab") 4 1 (by decide) (by decide) (by decide)⟩

/-- Head of the chunk list produced from position `i`, on whitespace-free
text and with enough fuel. -/
theorem chunkGoF_head (text : List Char) (chunkSize step1 : Nat) (hsz : 0 < chunkSize)
    (hws : ∀ c ∈ text, isWS c = false) :
    ∀ fuel i, text.length ≤ i + fuel →
      (chunkGoF text chunkSize step1 fuel i).head?
        = if i < text.length then some ((text.drop i).take chunkSize) else none := by
  intro fuel i hle
  cases fuel with
  | zero =>
      have hni : ¬ i < text.length := by omega
      rw [chunkGoF_nil text chunkSize step1 0 i hni, if_neg hni]
      rfl
  | succ n =>
      by_cases hi : i < text.length
      · rw [chunkGoF_cons text chunkSize step1 n i hi hsz hws, if_pos hi]
        rfl
      · rw [chunkGoF_nil text chunkSize step1 (n + 1) i hi, if_neg hi]
        rfl

/-- Two consecutive windows of the sliding-window loop share their boundary
region of `min ov (length of the later window)` characters. -/
theorem sharedOverlapB_windows (text : List Char) (chunkSize ov i : Nat)
    (hov : ov < chunkSize) (hi : i < text.length)
    (hj : i + (chunkSize - ov) < text.length) :
    sharedOverlapB ov ((text.drop i).take chunkSize)
      ((text.drop (i + (chunkSize - ov))).take chunkSize) = true := by
  unfold sharedOverlapB
  rw [beq_iff_eq]
  have ha : ((text.drop i).take chunkSize).length
      = min chunkSize (text.length - i) := by simp
  have hb : ((text.drop (i + (chunkSize - ov))).take chunkSize).length
      = min chunkSize (text.length - (i + (chunkSize - ov))) := by simp
  rw [ha, hb]
  have hkey : min chunkSize (text.length - i)
      - min ov (min chunkSize (text.length - (i + (chunkSize - ov))))
      = chunkSize - ov := by omega
  rw [hkey]
  have e1 : ((text.drop i).take chunkSize).drop (chunkSize - ov)
      = (text.drop (i + (chunkSize - ov))).take ov := by
    rw [List.drop_take, List.drop_drop]
    congr 1
    omega
  rw [e1]
  have e2 : ((text.drop (i + (chunkSize - ov))).take chunkSize).take
        (min ov (min chunkSize (text.length - (i + (chunkSize - ov)))))
      = (text.drop (i + (chunkSize - ov))).take
        (min ov (min chunkSize (text.length - (i + (chunkSize - ov))))) := by
    rw [List.take_take]
    congr 1
    omega
  rw [e2]
  rw [List.take_eq_take]
  simp only [List.length_drop]
  omega

/-- On whitespace-free text, consecutive chunks produced from position `i`
always share their boundary region. -/
theorem pairwiseConsecB_chunkGoF (text : List Char) (chunkSize ov step1 : Nat)
    (hstep : step1 + 1 = chunkSize - ov) (hov : ov < chunkSize)
    (hws : ∀ c ∈ text, isWS c = false) :
    ∀ fuel i, text.length ≤ i + fuel →
      pairwiseConsecB (sharedOverlapB ov) (chunkGoF text chunkSize step1 fuel i) = true := by
  intro fuel
  induction fuel with
  | zero =>
      intro i hle
      rw [chunkGoF_nil text chunkSize step1 0 i (by omega)]
      rfl
  | succ n ih =>
      intro i hle
      by_cases hi : i < text.length
      · rw [chunkGoF_cons text chunkSize step1 n i hi (by omega) hws]
        cases hrest : chunkGoF text chunkSize step1 n (i + step1 + 1) with
        | nil => rfl
        | cons c rest =>
            have hh := chunkGoF_head text chunkSize step1 (by omega) hws n
              (i + step1 + 1) (by omega)
            rw [hrest] at hh
            by_cases hj : i + step1 + 1 < text.length
            · rw [if_pos hj] at hh
              have hc : c = (text.drop (i + step1 + 1)).take chunkSize := by
                simpa using hh
              have hidx : i + step1 + 1 = i + (chunkSize - ov) := by omega
              have hpair : sharedOverlapB ov ((text.drop i).take chunkSize) c = true := by
                rw [hc, hidx]
                exact sharedOverlapB_windows text chunkSize ov i hov hi (by omega)
              have hrec := ih (i + step1 + 1) (by omega)
              rw [hrest] at hrec
              show (sharedOverlapB ov ((text.drop i).take chunkSize) c
                  && pairwiseConsecB (sharedOverlapB ov) (c :: rest)) = true
              rw [hpair, hrec]
              rfl
            · rw [if_neg hj] at hh
              simp at hh
      · rw [chunkGoF_nil text chunkSize step1 (n + 1) i hi]
        rfl

/-- Every chunk the loop emits is a trimmed window of at most `chunkSize`
characters. -/
theorem chunkGoF_length_le (text : List Char) (chunkSize step1 : Nat) :
    ∀ fuel i c, c ∈ chunkGoF text chunkSize step1 fuel i → c.length ≤ chunkSize := by
  intro fuel
  induction fuel with
  | zero =>
      intro i c hc
      simp [chunkGoF] at hc
  | succ n ih =>
      intro i c hc
      by_cases hi : i < text.length
      · simp only [chunkGoF, if_pos hi, List.mem_append] at hc
        cases hc with
        | inl h =>
            have hcc : c = trim ((text.drop i).take chunkSize) := by
              by_cases hpos : 0 < (trim ((text.drop i).take chunkSize)).length
              · simpa [hpos] using h
              · simp [hpos] at h
            rw [hcc]
            calc (trim ((text.drop i).take chunkSize)).length
                ≤ ((text.drop i).take chunkSize).length := trim_length_le _
              _ ≤ chunkSize := by
                  simp only [List.length_take, List.length_drop]
                  omega
        | inr h => exact ih _ c h
      · simp [chunkGoF, hi] at hc

/-- C6 (counterexample): with `chunkSize = 4`, `chunkOverlap = 2` and the
whitespace-free text "abcde" the chunks are "abcd", "cde", "e"; the final
pair shares only one character, so consecutive chunks do not overlap in
exactly `chunkOverlap` characters as claimed. -/
theorem chunkText_exact_overlap_counterexample :
    0 < 2 ∧ 2 < 4 ∧
      pairwiseConsecB (exactOverlapB 2) (chunkText (String.toList "abcde") 4 2) = false := by
  decide

/-- C6 (amended): for valid parameters every chunk produced by `chunkText`
has length at most `chunkSize`, and on whitespace-free text each pair of
consecutive chunks shares its boundary region of
`min chunkOverlap (length of the later chunk)` characters — exactly
`chunkOverlap` except possibly at the final, shorter chunk. -/
theorem chunkText_size_and_overlap (text : List Char) (chunkSize chunkOverlap : Nat)
    (h0 : 0 < chunkOverlap) (h1 : chunkOverlap < chunkSize) :
    (∀ chunk ∈ chunkText text chunkSize chunkOverlap, chunk.length ≤ chunkSize)
    ∧ ((∀ c ∈ text, isWS c = false) →
        pairwiseConsecB (sharedOverlapB chunkOverlap)
          (chunkText text chunkSize chunkOverlap) = true) := by
  constructor
  · intro chunk hc
    exact chunkGoF_length_le text chunkSize (chunkSize - chunkOverlap - 1)
      text.length 0 chunk hc
  · intro hws
    exact pairwiseConsecB_chunkGoF text chunkSize chunkOverlap
      (chunkSize - chunkOverlap - 1) (by omega) h1 hws text.length 0 (by omega)

/-- Witness for C6 (amended) at text "abcd", `chunkSize = 3`, `chunkOverlap = 1`. -/
theorem chunkText_size_and_overlap_witness :
    (0 < 1 ∧ 1 < 3) ∧
      ((∀ chunk ∈ chunkText (String.toList "abcd") 3 1, chunk.length ≤ 3)
        ∧ ((∀ c ∈ String.toList "abcd", isWS c = false) →
            pairwiseConsecB (sharedOverlapB 1) (chunkText (String.toList "abcd") 3 1) = true)) :=
  ⟨⟨by decide, by decide⟩,
    chunkText_size_and_overlap (String.toList "abcd") 3 1 (by decide) (by decide)⟩

/-- A single feed contributes at most `perFeed` articles. -/
theorem feedArticles_length_le (env : IngestEnv) (perFeed : Nat)
    (feed : String × Except String (List FeedItem)) :
    (feedArticles env perFeed feed).length ≤ perFeed := by
  unfold feedArticles
  rcases feed with ⟨url, res⟩
  cases res with
  | error e => simp
  | ok items =>
      refine le_trans (List.length_filter_le _ _) ?_
      rw [List.length_map, List.length_take]
      omega

/-- Sum of the per-feed article counts is bounded by feeds times the
per-feed cap. -/
theorem sum_feedArticles_le (env : IngestEnv) (perFeed : Nat) :
    ∀ l : List (String × Except String (List FeedItem)),
      ((l.map (feedArticles env perFeed)).map List.length).sum ≤ l.length * perFeed := by
  intro l
  induction l with
  | nil => simp
  | cons a l ih =>
      simp only [List.map_cons, List.sum_cons, List.length_cons]
      have ha := feedArticles_length_le env perFeed a
      have h2 : (l.length + 1) * perFeed = l.length * perFeed + perFeed :=
        Nat.succ_mul l.length perFeed
      omega

/-- C7 (counterexample): in `c7Env` (`maxArticles = 3`, two feeds of two
long items each) `fetchArticles` returns 4 articles, so the total is not
capped at the configured maximum. -/
theorem fetchArticles_cap_counterexample :
    (fetchArticles c7Env).length = 4 ∧ ¬ (fetchArticles c7Env).length ≤ c7Env.maxArticles := by
  decide

/-- C7 (amended): with at least one configured feed, every feed contributes
at most `⌈maxArticles / numFeeds⌉` articles (the cap is distributed evenly),
and the total is at most `numFeeds * ⌈maxArticles / numFeeds⌉` — which can
exceed `maxArticles` by up to `numFeeds - 1`. -/
theorem fetchArticles_cap (env : IngestEnv) (hfeeds : 0 < env.feeds.length) :
    (∀ feed ∈ env.feeds,
        (feedArticles env (maxArticlesPerFeed env.maxArticles env.feeds.length) feed).length
          ≤ maxArticlesPerFeed env.maxArticles env.feeds.length)
    ∧ (fetchArticles env).length
        ≤ env.feeds.length * maxArticlesPerFeed env.maxArticles env.feeds.length := by
  constructor
  · intro feed _
    exact feedArticles_length_le env (maxArticlesPerFeed env.maxArticles env.feeds.length) feed
  · unfold fetchArticles
    rw [List.length_flatten]
    exact sum_feedArticles_le env (maxArticlesPerFeed env.maxArticles env.feeds.length) env.feeds

/-- Witness for C7 (amended) at the concrete environment `c7Env`. -/
theorem fetchArticles_cap_witness :
    0 < c7Env.feeds.length ∧
      ((∀ feed ∈ c7Env.feeds,
          (feedArticles c7Env (maxArticlesPerFeed c7Env.maxArticles c7Env.feeds.length) feed).length
            ≤ maxArticlesPerFeed c7Env.maxArticles c7Env.feeds.length)
        ∧ (fetchArticles c7Env).length
            ≤ c7Env.feeds.length * maxArticlesPerFeed c7Env.maxArticles c7Env.feeds.length) :=
  ⟨by decide, fetchArticles_cap c7Env (by decide)⟩

end Ingest

namespace LLM

/-- C2 (counterexample): in `c2Env` both backends are constructed, the
configured primary (Gemini) fails and the would-be secondary (OpenAI) would
answer "hello from secondary"; yet `generateResponse` returns the fixed
apology, not text from the secondary — there is no fallback chain in the
code, only a single-provider switch with a catch-all. -/
theorem generateResponse_no_fallback_counterexample :
    (generateResponse c2Env Provider.gemini "What is AI?" [] []).content
        ≠ "hello from secondary"
    ∧ (generateResponse c2Env Provider.gemini "What is AI?" [] []).content
        = apologyMessage := by
  constructor
  · decide
  · rfl

/-- C2 (amended): the Generator supports only the single configured backend;
when that backend fails (for any reason), `generateResponse` returns the
fixed apology response with an empty source list — the failure is caught
inside the service and never surfaced to the caller. -/
theorem generateResponse_backend_failure_apology (env : LLMEnv) (p : Provider)
    (message : String) (history : List ChatMessage) (context : List RetrievedDoc)
    (e : String)
    (h : generateWith env p message (buildConversationHistory history)
        (buildSystemPrompt (buildContextText context)) = Except.error e) :
    generateResponse env p message history context
      = { content := apologyMessage, sources := [] } := by
  unfold generateResponse
  rw [h]

/-- Witness for C2 (amended): with no SDK constructed, the Gemini branch
fails with its not-initialized error and the apology is returned. -/
theorem generateResponse_backend_failure_apology_witness :
    generateWith c2FailEnv Provider.gemini "hi" (buildConversationHistory [])
        (buildSystemPrompt (buildContextText [])) = Except.error "Gemini not initialized"
    ∧ generateResponse c2FailEnv Provider.gemini "hi" [] []
        = { content := apologyMessage, sources := [] } :=
  ⟨rfl, generateResponse_backend_failure_apology c2FailEnv Provider.gemini "hi" [] []
    "Gemini not initialized" rfl⟩

end LLM

namespace Chat

open LLM

/-- Appending a turn and reading the same session returns the old history
plus that turn. -/
theorem getSessionHistory_addToSessionHistory (store : Sessions) (sid : String)
    (m : ChatMessage) :
    getSessionHistory (addToSessionHistory store sid m) sid
      = getSessionHistory store sid ++ [m] := by
  induction store with
  | nil => simp [addToSessionHistory, getSessionHistory]
  | cons kv rest ih =>
      rcases kv with ⟨k, v⟩
      by_cases hk : k = sid
      · simp [addToSessionHistory, getSessionHistory, hk]
      · simp [addToSessionHistory, getSessionHistory, hk, ih]

/-- C3: when the vector search succeeds and generation fails (its only
configured backend errors), the `/send` handler still answers with a
well-formed 200 body carrying the fixed apology text and an empty citation
list — the raw error is not propagated to the caller. -/
theorem sendMessage_generation_failure_wellformed (env : ChatEnv) (store : Sessions)
    (req : SendRequest) (docs : List RetrievedDoc) (e : String)
    (hs : env.search = Except.ok docs)
    (hgen : generateWith env.llm env.provider req.message
        (buildConversationHistory (getSessionHistory store (resolveSessionId req env.freshId)))
        (buildSystemPrompt (buildContextText docs)) = Except.error e) :
    (sendMessage env store req).fst
      = SendResult.ok
          { sessionId := resolveSessionId req env.freshId
            response := apologyMessage
            sources := []
            timestamp := env.nowIso } := by
  have hresp : generateResponse env.llm env.provider req.message
      (getSessionHistory store (resolveSessionId req env.freshId)) docs
      = { content := apologyMessage, sources := [] } := by
    unfold generateResponse
    rw [hgen]
  simp only [sendMessage, hs, hresp]

/-- Witness for C3 at the concrete environment `c3Env`. -/
theorem sendMessage_generation_failure_wellformed_witness :
    c3Env.search = Except.ok ([] : List RetrievedDoc)
    ∧ generateWith c3Env.llm c3Env.provider c9Req.message
        (buildConversationHistory (getSessionHistory ([] : Sessions)
          (resolveSessionId c9Req c3Env.freshId)))
        (buildSystemPrompt (buildContextText [])) = Except.error "Gemini not initialized"
    ∧ (sendMessage c3Env [] c9Req).fst
        = SendResult.ok
            { sessionId := resolveSessionId c9Req c3Env.freshId
              response := apologyMessage
              sources := []
              timestamp := c3Env.nowIso } :=
  ⟨rfl, rfl,
    sendMessage_generation_failure_wellformed c3Env [] c9Req [] "Gemini not initialized"
      rfl rfl⟩

/-- C8: when the vector search (the embedder or the index call) rejects,
the `/send` handler aborts with the 500 service-error body and the session
store is unchanged — no conversation turn is appended for that request. -/
theorem sendMessage_search_failure_aborts (env : ChatEnv) (store : Sessions)
    (req : SendRequest) (e : String) (hs : env.search = Except.error e) :
    sendMessage env store req
      = (SendResult.serverError "Internal server error" "Failed to process message",
          store) := by
  simp only [sendMessage, hs]

/-- Witness for C8 at the concrete environment `c8Env`. -/
theorem sendMessage_search_failure_aborts_witness :
    c8Env.search = Except.error "connect ECONNREFUSED 127.0.0.1:6333"
    ∧ sendMessage c8Env [] { sessionId := some "abc", message := "hi" }
        = (SendResult.serverError "Internal server error" "Failed to process message",
            ([] : Sessions)) :=
  ⟨rfl, sendMessage_search_failure_aborts c8Env [] { sessionId := some "abc", message := "hi" }
    "connect ECONNREFUSED 127.0.0.1:6333" rfl⟩

/-- C9 (counterexample): an explicitly supplied empty-string `sessionId`
passes validation (`z.string().optional()` has no minimum length), yet
`providedSessionId || uuidv4()` discards it and mints a fresh id — the
supplied value is not the one returned. -/
theorem sendMessage_empty_sessionId_counterexample :
    sentSessionId (sendMessage c3Env [] { sessionId := some "", message := "hello" }).fst
        = some "fresh-360"
    ∧ ("fresh-360" : String) ≠ "" := by
  constructor
  · rfl
  · decide

/-- C9 (amended): on a successful request, a supplied non-empty `sessionId`
is used and returned verbatim; an omitted — or empty — `sessionId` is
replaced by the freshly minted identifier, which is returned; and the two
new conversation turns are stored under the returned id, so supplying that
id on the next call continues the same conversation. -/
theorem sendMessage_sessionId_resolution (env : ChatEnv) (store : Sessions)
    (req : SendRequest) (docs : List RetrievedDoc)
    (hs : env.search = Except.ok docs) :
    (∀ s, req.sessionId = some s → s ≠ "" → resolveSessionId req env.freshId = s)
    ∧ (req.sessionId = none → resolveSessionId req env.freshId = env.freshId)
    ∧ (req.sessionId = some "" → resolveSessionId req env.freshId = env.freshId)
    ∧ sentSessionId (sendMessage env store req).fst
        = some (resolveSessionId req env.freshId)
    ∧ getSessionHistory (sendMessage env store req).snd (resolveSessionId req env.freshId)
        = getSessionHistory store (resolveSessionId req env.freshId)
          ++ [userTurn req env.now,
              assistantTurn (generateResponse env.llm env.provider req.message
                (getSessionHistory store (resolveSessionId req env.freshId)) docs) env.now] := by
  refine ⟨?_, ?_, ?_, ?_, ?_⟩
  · intro s hsome hne
    simp [resolveSessionId, hsome, hne]
  · intro hnone
    simp [resolveSessionId, hnone]
  · intro hsome
    simp [resolveSessionId, hsome]
  · simp only [sendMessage, hs, sentSessionId]
  · simp only [sendMessage, hs]
    rw [getSessionHistory_addToSessionHistory, getSessionHistory_addToSessionHistory]
    rw [List.append_assoc]
    rfl

/-- Witness for C9 (amended) at the concrete environment `c3Env` with an
omitted `sessionId`. -/
theorem sendMessage_sessionId_resolution_witness :
    c3Env.search = Except.ok ([] : List RetrievedDoc)
    ∧ ((∀ s, c9Req.sessionId = some s → s ≠ "" → resolveSessionId c9Req c3Env.freshId = s)
      ∧ (c9Req.sessionId = none → resolveSessionId c9Req c3Env.freshId = c3Env.freshId)
      ∧ (c9Req.sessionId = some "" → resolveSessionId c9Req c3Env.freshId = c3Env.freshId)
      ∧ sentSessionId (sendMessage c3Env [] c9Req).fst
          = some (resolveSessionId c9Req c3Env.freshId)
      ∧ getSessionHistory (sendMessage c3Env [] c9Req).snd (resolveSessionId c9Req c3Env.freshId)
          = getSessionHistory ([] : Sessions) (resolveSessionId c9Req c3Env.freshId)
            ++ [userTurn c9Req c3Env.now,
                assistantTurn (generateResponse c3Env.llm c3Env.provider c9Req.message
                  (getSessionHistory ([] : Sessions) (resolveSessionId c9Req c3Env.freshId)) [])
                  c3Env.now]) :=
  ⟨rfl, sendMessage_sessionId_resolution c3Env [] c9Req [] rfl⟩

end Chat

namespace VectorStore

/-- C10: every public vector-store operation called while the `initialized`
flag is unset returns the error "Vector store not initialized" and performs
no backend call (empty call trace); the guard is checked first and uniformly
at all four entry points. -/
theorem vectorStore_ops_guard (st : VSState) (h : st.initialized = false)
    (env : VSEnv) (docs : List Document) (query id : String) (topK : Nat) :
    addDocuments st docs = (Except.error notReadyMsg, [])
    ∧ search env st query topK = (Except.error notReadyMsg, [])
    ∧ deleteDocument st id = (Except.error notReadyMsg, [])
    ∧ clearCollection st = (Except.error notReadyMsg, []) := by
  refine ⟨?_, ?_, ?_, ?_⟩ <;>
    simp [addDocuments, search, deleteDocument, clearCollection, h]

/-- Witness for C10 at an uninitialized Qdrant-typed state. -/
theorem vectorStore_ops_guard_witness :
    ({ initialized := false, storeType := StoreType.qdrant } : VSState).initialized = false
    ∧ (addDocuments { initialized := false, storeType := StoreType.qdrant } []
          = (Except.error notReadyMsg, [])
      ∧ search c10Env { initialized := false, storeType := StoreType.qdrant } "q" 5
          = (Except.error notReadyMsg, [])
      ∧ deleteDocument { initialized := false, storeType := StoreType.qdrant } "id1"
          = (Except.error notReadyMsg, [])
      ∧ clearCollection { initialized := false, storeType := StoreType.qdrant }
          = (Except.error notReadyMsg, [])) :=
  ⟨rfl, vectorStore_ops_guard { initialized := false, storeType := StoreType.qdrant }
    rfl c10Env [] "q" "id1" 5⟩

end VectorStore
